import Mathlib

/-!
# Verification of the inventory batch/pagination core

Shallow embedding of the batch orchestration and pagination engine of
`inventory-cosmosdb-fastfunctions` (files `src/inventory_api/crud/product_crud.py`,
`src/inventory_api/crud/product_crud_batch.py`, `src/inventory_api/exceptions.py`,
`src/inventory_api/models/product.py`), together with theorems settling the
behavioural claims about it.

Modelling conventions:
* Store round-trips (`container.execute_item_batch`, `container.patch_item`,
  `container.create_item`) are passed in as function arguments (test doubles),
  and every embedded operation additionally returns the trace of store calls
  it made, so "no store call is made" is a provable statement.
* `uuid.uuid4()` and `datetime.utcnow()/now(timezone.utc)` are modelled as
  explicit id-supply and timestamp parameters.
* Python floats (`price`) are modelled as `Int`: no claim depends on
  floating-point arithmetic, only on the value being carried around.
* Python exceptions are modelled with `Except`; a `try/except` block is a
  `match` on the `Except` value.
-/

namespace InventoryCore

/-- JSON-ish values carried in dumped dicts and JSON-patch operations. -/
inductive JValue where
  | s (v : String)
  | i (v : Int)
  | b (v : Bool)
  | null
deriving DecidableEq, Repr

/-- `ProductStatus` enum from `models/product.py`. -/
inductive ProductStatus where
  | active
  | inactive
deriving DecidableEq, Repr

/-- `.value` of a `ProductStatus` member. -/
def ProductStatus.value : ProductStatus → String
  | .active => "active"
  | .inactive => "inactive"

/-- `ProductCreate` request model from `models/product.py`. -/
structure ProductCreate where
  name : String
  description : Option String := none
  category : String
  price : Int
  sku : String
  quantity : Int := 0
deriving DecidableEq, Repr

/-- `ProductUpdate` request model from `models/product.py`: all five fields are
optional, and Pydantic additionally distinguishes an *unset* field from one
explicitly set to `None` (`model_dump(exclude_unset=True)` drops only the
former).  `none` = unset, `some none` = set to `None`, `some (some v)` = set. -/
structure ProductUpdate where
  name : Option (Option String) := none
  description : Option (Option String) := none
  price : Option (Option Int) := none
  quantity : Option (Option Int) := none
  status : Option (Option ProductStatus) := none
deriving DecidableEq, Repr

/-- A raw Cosmos document / dict, with every field optional (`none` = key
absent).  `ts` stands for the Cosmos system field `_ts`, `etag` for `_etag`. -/
structure StoreDoc where
  id : Option String := none
  name : Option String := none
  description : Option String := none
  category : Option String := none
  price : Option Int := none
  sku : Option String := none
  quantity : Option Int := none
  etag : Option String := none
  status : Option String := none
  last_updated : Option String := none
  ts : Option Nat := none
deriving DecidableEq, Repr

/-- `ProductResponse` model from `models/product.py` (validated item). -/
structure ProductResponse where
  id : String
  name : String
  description : Option String
  category : String
  price : Int
  sku : String
  quantity : Int
  etag : String
  status : ProductStatus
  last_updated : String
deriving DecidableEq, Repr

/-- Stand-in for `datetime.fromtimestamp` used by the `_ts` fallback of
`ProductResponse.model_validate`; the exact rendered string is irrelevant to
every claim, only that a value is produced. -/
def tsToDatetime (ts : Nat) : String := toString ts

/-- Status-string parsing performed by Pydantic for the `status` field
(default `active` when absent; unknown strings are a validation error). -/
def parseStatus : Option String → Option ProductStatus
  | none => some .active
  | some "active" => some .active
  | some "inactive" => some .inactive
  | some _ => none

/-- `ProductResponse.model_validate` from `models/product.py`: the `_ts`
fallback for a missing `last_updated`, then Pydantic validation requiring
`id`, `name`, `category`, `price`, `sku`, `quantity`, `_etag`, `last_updated`;
`description` optional, `status` defaulted.  `none` is a `ValidationError`. -/
def modelValidate (d : StoreDoc) : Option ProductResponse :=
  let lastUpdated : Option String :=
    match d.last_updated, d.ts with
    | some v, _ => some v
    | none, some t => some (tsToDatetime t)
    | none, none => none
  match d.id, d.name, d.category, d.price, d.sku, d.quantity, d.etag,
      lastUpdated, parseStatus d.status with
  | some id, some name, some cat, some price, some sku, some qty, some etag,
      some lu, some st =>
    some { id := id, name := name, description := d.description, category := cat,
           price := price, sku := sku, quantity := qty, etag := etag,
           status := st, last_updated := lu }
  | _, _, _, _, _, _, _, _, _ => none

/-- Python `str.lower()` (per-character lowercasing; ASCII case mapping,
which covers every category string appearing in the claims). -/
def pyLower (s : String) : String := String.mk (s.data.map Char.toLower)

/-- Python `str.upper()`, and the Cosmos SQL builtin `UPPER()`. -/
def pyUpper (s : String) : String := String.mk (s.data.map Char.toUpper)

/-- Python `str.strip()`: drop leading and trailing whitespace. -/
def pyStrip (s : String) : String :=
  String.mk (((s.data.dropWhile Char.isWhitespace).reverse.dropWhile Char.isWhitespace).reverse)

/-- `normalize_category` from `product_crud.py`: `category.lower().strip()`. -/
def normalize_category (category : String) : String :=
  pyStrip (pyLower category)

/-! ## Partition grouping (`defaultdict(list)` loops in `product_crud_batch.py`)

`products_by_category[product_model.category].append(product_model)` builds an
insertion-ordered dict from key to the list of items carrying that key, the
key being the item's `category` attribute **exactly as supplied**. -/

/-- One step of the `defaultdict(list)` append: extend the group of `k` if it
exists, otherwise open a new group at the end. -/
def insertGrouped {α : Type} (acc : List (String × List α)) (k : String) (x : α) :
    List (String × List α) :=
  match acc with
  | [] => [(k, [x])]
  | (k', xs) :: rest =>
    if k' = k then (k', xs ++ [x]) :: rest else (k', xs) :: insertGrouped rest k x

/-- The whole grouping loop: fold `insertGrouped` over the batch items. -/
def groupBy {α : Type} (key : α → String) (l : List α) : List (String × List α) :=
  l.foldl (fun acc x => insertGrouped acc (key x) x) []

/-- `products_by_category` built by `create_products` (keys are the raw,
unnormalized `category` fields). -/
def products_by_category (items : List ProductCreate) : List (String × List ProductCreate) :=
  groupBy (fun p => p.category) items

/-- The items of the group with key `k` (empty when no such group). -/
def groupOf {α : Type} (groups : List (String × List α)) (k : String) : List α :=
  match groups with
  | [] => []
  | (k', xs) :: rest => if k' = k then xs else groupOf rest k

/-- The distinct keys of a key sequence, first occurrence first: the key list
a `defaultdict` ends up with. -/
def distinctKeys (ks : List String) : List String :=
  ks.foldl (fun acc k => if k ∈ acc then acc else acc ++ [k]) []

/-! ## Store-level types: Cosmos SDK operations, errors, call traces -/

/-- One JSON-patch operation dict `{"op": ..., "path": ..., "value": ...}`. -/
structure PatchOp where
  op : String
  path : String
  value : JValue
deriving DecidableEq, Repr

/-- Entry of `CosmosBatchOperationError.operation_responses`. -/
structure OpResponse where
  statusCode : Nat
deriving DecidableEq, Repr

/-- Exceptions raised by the Cosmos SDK / Pydantic, as caught by the source. -/
inductive PyError where
  | cosmosBatchOperationError (errorIndex : Nat) (operationResponses : List OpResponse)
  | cosmosHttpResponseError (statusCode : Nat) (message : String)
  | validationError
  | genericError (message : String)
deriving DecidableEq, Repr

/-- One operation tuple handed to `container.execute_item_batch`. -/
inductive BatchOp where
  | create (d : StoreDoc)
  | patch (id : String) (ops : List PatchOp) (ifMatchEtag : String)
  | delete (id : String)
deriving DecidableEq, Repr

/-- Test double for `container.execute_item_batch`: partition key and
operation list in, either the per-operation result documents or an SDK
exception out. -/
abbrev BatchOracle : Type := String → List BatchOp → Except PyError (List StoreDoc)

/-- Trace of `execute_item_batch` invocations (partition key, operations). -/
abbrev BatchTrace : Type := List (String × List BatchOp)

/-! ## Batch create (`create_products` in `product_crud_batch.py`) -/

/-- The dict built for one create: `product.model_dump()` plus the generated
`id`, `status = ProductStatus.ACTIVE.value` and `last_updated` timestamp.
Note: the batch path does **not** touch `category`. -/
def dump_create_doc (p : ProductCreate) (newId now : String) : StoreDoc :=
  { id := some newId, name := some p.name, description := p.description,
    category := some p.category, price := some p.price, sku := some p.sku,
    quantity := some p.quantity, etag := none,
    status := some ProductStatus.active.value, last_updated := some now,
    ts := none }

/-- The per-group document-building loop of `process_category_creates`
(`genId i` models the `uuid.uuid4()` drawn for the `i`-th item). -/
def build_batch_create_docs (genId : Nat → String) (now : String) :
    Nat → List ProductCreate → List StoreDoc
  | _, [] => []
  | i, p :: rest => dump_create_doc p (genId i) now :: build_batch_create_docs genId now (i + 1) rest

/-- The success-path result loop shared by batch create and batch update:
`for result_item in batch_results: if isinstance(result_item, dict) and
result_item.get("id"): ... model_validate ... append`.  A result without a
truthy `id` is logged and skipped; a `model_validate` exception escapes the
loop, is caught by the surrounding `except Exception`, and the products
accumulated so far are returned. -/
def collect_batch_results : List StoreDoc → List ProductResponse → List ProductResponse
  | [], acc => acc
  | d :: rest, acc =>
    if d.id.getD "" ≠ "" then
      match modelValidate d with
      | some p => collect_batch_results rest (acc ++ [p])
      | none => acc
    else
      collect_batch_results rest acc

/-- `process_category_creates`: build the docs, submit them as one
`execute_item_batch` call, collect the successes; every exception
(`CosmosBatchOperationError`, `CosmosHttpResponseError`, generic) is caught,
logged, and the (then empty) success list is returned.  Also returns the
trace of store calls made. -/
def process_category_creates (oracle : BatchOracle) (genId : Nat → String)
    (now : String) (category_pk : String) (product_list : List ProductCreate) :
    List ProductResponse × BatchTrace :=
  if product_list.isEmpty then ([], [])
  else
    let docs := build_batch_create_docs genId now 0 product_list
    let ops := docs.map BatchOp.create
    if ops.isEmpty then ([], [])
    else
      match oracle category_pk ops with
      | .ok batch_results => (collect_batch_results batch_results [], [(category_pk, ops)])
      | .error _ => ([], [(category_pk, ops)])

/-- `ProductBatchCreate` request model. -/
structure ProductBatchCreate where
  items : List ProductCreate
deriving DecidableEq, Repr

/-- `create_products`: early return on an empty batch, group by the raw
`category`, run `process_category_creates` per group (concurrently in the
source; `asyncio.gather` preserves task order, so the flattening order is the
group insertion order), and flatten the per-group success lists.  The return
value is the flat success list only — there is no failure component. -/
def create_products (oracle : BatchOracle) (genId : String → Nat → String)
    (now : String) (batch_create : ProductBatchCreate) :
    List ProductResponse × BatchTrace :=
  if batch_create.items.isEmpty then ([], [])
  else
    let groups := products_by_category batch_create.items
    let results := groups.map (fun g => process_category_creates oracle (genId g.1) now g.1 g.2)
    ((results.map Prod.fst).flatten, (results.map Prod.snd).flatten)

/-! ## Batch delete (`delete_products` in `product_crud_batch.py`) -/

/-- `ProductBatchDeleteItem` request model. -/
structure ProductBatchDeleteItem where
  id : String
  category : String
deriving DecidableEq, Repr

/-- `ProductBatchDelete` request model. -/
structure ProductBatchDelete where
  items : List ProductBatchDeleteItem
deriving DecidableEq, Repr

/-- `process_category_deletes`: submit one delete op per id; on success all
ids of the group are reported deleted, on any exception (batch error, HTTP
error, generic) the exception is logged and the empty list returned. -/
def process_category_deletes (oracle : BatchOracle) (category_pk : String)
    (product_ids : List String) : List String × BatchTrace :=
  if product_ids.isEmpty then ([], [])
  else
    let ops := product_ids.map BatchOp.delete
    if ops.isEmpty then ([], [])
    else
      match oracle category_pk ops with
      | .ok _ => (product_ids, [(category_pk, ops)])
      | .error _ => ([], [(category_pk, ops)])

/-- `delete_products`: early return on an empty batch, group ids by the raw
`category` (`deletes_by_category[delete_item.category].append(delete_item.id)`),
process each group, flatten. -/
def delete_products (oracle : BatchOracle) (batch_delete : ProductBatchDelete) :
    List String × BatchTrace :=
  if batch_delete.items.isEmpty then ([], [])
  else
    let groups := groupBy (fun it => it.category) batch_delete.items
    let results := groups.map (fun g => process_category_deletes oracle g.1 (g.2.map (fun it => it.id)))
    ((results.map Prod.fst).flatten, (results.map Prod.snd).flatten)

/-! ## Patch construction (shared shape of `update_product` and
`process_category_updates`) -/

/-- Wrap an optional Python value (`None` vs a value) as a `JValue`. -/
def jopt {α : Type} (f : α → JValue) : Option α → JValue
  | none => JValue.null
  | some v => f v

/-- One entry of the dumped dict: nothing when the field is unset, the
key-value pair when it is set (possibly to `None`). -/
def dumpField {β : Type} (key : String) (f : β → JValue) : Option β → List (String × JValue)
  | none => []
  | some v => [(key, f v)]

/-- `updates.model_dump(exclude_unset=True)`: the set fields, in field
declaration order (Python dicts preserve insertion order). -/
def ProductUpdate.model_dump_exclude_unset (u : ProductUpdate) : List (String × JValue) :=
  dumpField "name" (jopt JValue.s) u.name ++
  dumpField "description" (jopt JValue.s) u.description ++
  dumpField "price" (jopt JValue.i) u.price ++
  dumpField "quantity" (jopt JValue.i) u.quantity ++
  dumpField "status" (jopt (fun st => JValue.s st.value)) u.status

/-- The patch-building loop, textually repeated in `product_crud.py` (single
update) and `product_crud_batch.py` (batch update): for each dict entry whose
key is not in `["id", "category", "_etag"]`, emit
`{"op": "set", "path": f"/{key}", "value": value}`. -/
def json_patch_ops_from (update_dict : List (String × JValue)) : List PatchOp :=
  (update_dict.filter (fun kv => !(["id", "category", "_etag"].contains kv.1))).map
    (fun kv => { op := "set", path := "/" ++ kv.1, value := kv.2 })

/-! ## Batch update (`update_products` in `product_crud_batch.py`) -/

/-- `ProductBatchUpdateItem` request model. -/
structure ProductBatchUpdateItem where
  id : String
  category : String
  etag : String
  changes : ProductUpdate
deriving DecidableEq, Repr

/-- `ProductBatchUpdate` request model. -/
structure ProductBatchUpdate where
  items : List ProductBatchUpdateItem
deriving DecidableEq, Repr

/-- Per-item operation building of `process_category_updates`: dump the
changes with `exclude_unset`, **then** add `last_updated`, then build the
patch ops; only if the resulting op list is empty is the item skipped
(logged), otherwise a `("patch", (id, ops), {"if_match_etag": etag})`
operation is emitted. -/
def build_update_op (now : String) (item : ProductBatchUpdateItem) : Option BatchOp :=
  let update_dict := item.changes.model_dump_exclude_unset ++ [("last_updated", JValue.s now)]
  let json_patch_operations := json_patch_ops_from update_dict
  if json_patch_operations.isEmpty then none
  else some (.patch item.id json_patch_operations item.etag)

/-- `process_category_updates`: build the per-item patch ops (skipping items
with no ops), submit them as one `execute_item_batch` call, collect the
successes; every exception is caught, logged, and the accumulated (then
empty) success list returned. -/
def process_category_updates (oracle : BatchOracle) (now : String)
    (category_pk : String) (update_items : List ProductBatchUpdateItem) :
    List ProductResponse × BatchTrace :=
  if update_items.isEmpty then ([], [])
  else
    let ops := update_items.filterMap (build_update_op now)
    if ops.isEmpty then ([], [])
    else
      match oracle category_pk ops with
      | .ok batch_results => (collect_batch_results batch_results [], [(category_pk, ops)])
      | .error _ => ([], [(category_pk, ops)])

/-- `update_products`: early return on an empty batch, group by the raw
`category`, process each group, flatten the per-group success lists. -/
def update_products (oracle : BatchOracle) (now : String)
    (batch_update : ProductBatchUpdate) : List ProductResponse × BatchTrace :=
  if batch_update.items.isEmpty then ([], [])
  else
    let groups := groupBy (fun it => it.category) batch_update.items
    let results := groups.map (fun g => process_category_updates oracle now g.1 g.2)
    ((results.map Prod.fst).flatten, (results.map Prod.snd).flatten)

/-! ## Application-level errors (`exceptions.py` and builtins) -/

/-- The application error kinds `product_crud.py` raises (class names from
`inventory_api.exceptions`, plus the builtin `ValueError`). -/
inductive AppError where
  | productNotFoundError (msg : String)
  | productAlreadyExistsError (msg : String)
  | databaseError (msg : String)
  | preconditionFailedError (msg : String)
  | valueError (msg : String)
deriving DecidableEq, Repr

/-- The class names actually defined in `src/inventory_api/exceptions.py`
(the complete file). -/
def exceptions_defined : List String :=
  ["ApplicationError", "ProductNotFoundError", "ProductAlreadyExistsError", "DatabaseError"]

/-- The names `src/inventory_api/crud/product_crud.py` (lines 18-23) imports
from `inventory_api.exceptions`. -/
def product_crud_exception_imports : List String :=
  ["ProductNotFoundError", "ProductAlreadyExistsError", "DatabaseError", "PreconditionFailedError"]

/-! ## Single-item update (`update_product` in `product_crud.py`) -/

/-- One `container.patch_item` invocation (item id, partition key, patch
operations, `if-match` ETag header). -/
structure PatchCall where
  item : String
  partitionKey : String
  ops : List PatchOp
  ifMatchEtag : String
deriving DecidableEq, Repr

/-- Test double for `container.patch_item`. -/
abbrev PatchDouble : Type := PatchCall → Except PyError StoreDoc

/-- `update_product`: reject an empty dump with `ValueError` **before** any
store access; otherwise normalize the partition key, add `last_updated` to the
dict, build the patch ops and call `patch_item` with the ETag precondition;
404 is mapped to `ProductNotFoundError`, 412 to `PreconditionFailedError`,
any other error to `DatabaseError`.  Returns the result together with the
trace of `patch_item` calls. -/
def update_product (patch_item : PatchDouble) (now : String)
    (product_id category : String) (updates : ProductUpdate) (etag : String) :
    Except AppError ProductResponse × List PatchCall :=
  let update_dict := updates.model_dump_exclude_unset
  if update_dict.isEmpty then
    (.error (.valueError "No fields provided for update."), [])
  else
    let normalized_category := normalize_category category
    let update_dict := update_dict ++ [("last_updated", JValue.s now)]
    let patch_operations := json_patch_ops_from update_dict
    let call : PatchCall := ⟨product_id, normalized_category, patch_operations, etag⟩
    let result : Except AppError ProductResponse :=
      match patch_item call with
      | .ok result =>
        match modelValidate result with
        | some p => .ok p
        | none =>
          .error (.databaseError "An unexpected error occurred during database operation.")
      | .error (.cosmosHttpResponseError code msg) =>
        if code = 404 then
          .error (.productNotFoundError
            ("Product with ID '" ++ product_id ++ "' and category '" ++ category ++ "' not found"))
        else if code = 412 then
          .error (.preconditionFailedError
            ("Product with ID '" ++ product_id ++ "' has been modified since last retrieved (ETag mismatch)."))
        else
          .error (.databaseError
            ("Cosmos DB error during product update: Status Code " ++ toString code ++ ", Message: " ++ msg))
      | .error _ =>
        .error (.databaseError "An unexpected error occurred during database operation.")
    (result, [call])

/-! ## Single-item create (`create_product` in `product_crud.py`) -/

/-- Test double for `container.create_item`. -/
abbrev CreateDouble : Type := StoreDoc → Except PyError StoreDoc

/-- `create_product`: dump the payload, assign id / status / `last_updated`,
then overwrite `category` with its normalized form ("Normalize category for
consistent storage"), submit via `create_item`; 409 maps to
`ProductAlreadyExistsError`, other errors to `DatabaseError`.  Returns the
result together with the trace of submitted bodies. -/
def create_product (create_item : CreateDouble) (newId now : String)
    (product : ProductCreate) : Except AppError ProductResponse × List StoreDoc :=
  let data := dump_create_doc product newId now
  let data := { data with category := some (normalize_category (data.category.getD "")) }
  let result : Except AppError ProductResponse :=
    match create_item data with
    | .ok result =>
      match modelValidate result with
      | some p => .ok p
      | none =>
        .error (.databaseError "An unexpected error occurred during database operation.")
    | .error (.cosmosHttpResponseError code msg) =>
      if code = 409 then
        .error (.productAlreadyExistsError
          ("Product with ID " ++ newId ++ " or SKU " ++ product.sku ++ " already exists"))
      else
        .error (.databaseError
          ("Cosmos DB error during product creation: Status Code " ++ toString code ++ ", Message: " ++ msg))
    | .error _ =>
      .error (.databaseError "An unexpected error occurred during database operation.")
  (result, [data])

/-! ## Paginated listing (`list_products` in `product_crud.py`)

The store side is the external Cosmos collaborator, modelled at its documented
interface: `container.query_items(query, parameters, partition_key, ...)` with
a `partition_key` argument scopes the query to the single logical partition
whose key value equals the given string **exactly** (Cosmos partition-key
values are case-sensitive strings), and evaluates the `WHERE` clause inside
that partition.  The source's query is
`SELECT * FROM c WHERE UPPER(c.category) = UPPER(@category)` with
`@category := normalize_category(category)` — but `partition_key=category` is
passed **raw**.  `by_page(token)`/`continuation_token` is modelled as a plain
offset cursor into the query's result set, rendered to and from a string. -/

/-- `ProductList` response model. -/
structure ProductList where
  items : List ProductResponse
  continuation_token : Option String := none
deriving DecidableEq, Repr

/-- The result set of the source's query: documents of the partition
`partition_key` (exact match on the document's partition-key field
`category`) that satisfy `UPPER(c.category) = UPPER(@category)`. -/
def list_result_set (store : List StoreDoc) (partition_key param_category : String) :
    List StoreDoc :=
  store.filter (fun d =>
    match d.category with
    | some c => c == partition_key && pyUpper c == pyUpper param_category
    | none => false)

/-- Decode a continuation token (an offset produced by a prior call);
`None` starts from the beginning. -/
def decode_token : Option String → Nat
  | none => 0
  | some t => t.toNat?.getD 0

/-- The per-page validation loop of `list_products`: validate each raw record,
append on success, and on a `ValidationError` log and `continue` — only this
exception kind is caught here, and it does not abort the loop. -/
def process_page_items : List StoreDoc → List ProductResponse → List ProductResponse
  | [], acc => acc
  | d :: rest, acc =>
    match modelValidate d with
    | some p => process_page_items rest (acc ++ [p])
    | none => process_page_items rest acc

/-- `list_products`: normalize the category for the query parameter, query
with `partition_key = category` (raw), fetch one page of `max_items` records
at the token's position, validate each record independently, and return the
valid ones with the next continuation token (`none` when the result set is
exhausted). -/
def list_products (store : List StoreDoc) (category : String)
    (continuation_token : Option String) (max_items : Nat) : ProductList :=
  let normalized_category := normalize_category category
  let resultSet := list_result_set store category normalized_category
  let offset := decode_token continuation_token
  let page := (resultSet.drop offset).take max_items
  let items := process_page_items page []
  let next := if offset + max_items < resultSet.length
    then some (toString (offset + max_items)) else none
  { items := items, continuation_token := next }

/-! ## Lemmas about the partition grouping -/

theorem insertGrouped_map_fst {α : Type} (acc : List (String × List α)) (k : String) (x : α) :
    (insertGrouped acc k x).map Prod.fst =
      if k ∈ acc.map Prod.fst then acc.map Prod.fst else acc.map Prod.fst ++ [k] := by
  induction acc with
  | nil => simp [insertGrouped]
  | cons hd rest ih =>
    obtain ⟨k', xs⟩ := hd
    by_cases h : k' = k
    · subst h
      simp [insertGrouped]
    · by_cases hm : k ∈ rest.map Prod.fst <;>
        simp [insertGrouped, h, ih, hm, List.mem_cons, Ne.symm h]

theorem insertGrouped_sizes {α : Type} (acc : List (String × List α)) (k : String) (x : α) :
    ((insertGrouped acc k x).map (fun g => g.2.length)).sum =
      (acc.map (fun g => g.2.length)).sum + 1 := by
  induction acc with
  | nil => simp [insertGrouped]
  | cons hd rest ih =>
    obtain ⟨k', xs⟩ := hd
    by_cases h : k' = k
    · subst h
      simp [insertGrouped]
      omega
    · simp [insertGrouped, h, ih]
      omega

theorem groupBy_sizes_sum {α : Type} (key : α → String) (l : List α) :
    ((groupBy key l).map (fun g => g.2.length)).sum = l.length := by
  suffices h : ∀ (l : List α) (acc : List (String × List α)),
      ((l.foldl (fun a x => insertGrouped a (key x) x) acc).map (fun g => g.2.length)).sum =
        (acc.map (fun g => g.2.length)).sum + l.length by
    simpa [groupBy] using h l []
  intro l
  induction l with
  | nil => intro acc; simp
  | cons x rest ih =>
    intro acc
    simp only [List.foldl_cons]
    rw [ih, insertGrouped_sizes]
    simp only [List.length_cons]
    omega

theorem groupOf_insertGrouped {α : Type} (acc : List (String × List α)) (k k' : String) (x : α) :
    groupOf (insertGrouped acc k' x) k =
      if k' = k then groupOf acc k ++ [x] else groupOf acc k := by
  induction acc with
  | nil => by_cases h : k' = k <;> simp [insertGrouped, groupOf, h]
  | cons hd rest ih =>
    obtain ⟨k0, xs⟩ := hd
    by_cases h0 : k0 = k'
    · subst h0
      by_cases h : k0 = k <;> simp [insertGrouped, groupOf, h]
    · by_cases h : k0 = k
      · subst h
        have h0' : ¬k' = k0 := fun hh => h0 hh.symm
        simp [insertGrouped, groupOf, h0, h0']
      · simp [insertGrouped, groupOf, h0, h, ih]

theorem groupOf_groupBy {α : Type} (key : α → String) (l : List α) (k : String) :
    groupOf (groupBy key l) k = l.filter (fun x => key x == k) := by
  suffices h : ∀ (l : List α) (acc : List (String × List α)),
      groupOf (l.foldl (fun a x => insertGrouped a (key x) x) acc) k =
        groupOf acc k ++ l.filter (fun x => key x == k) by
    simpa [groupBy, groupOf] using h l []
  intro l
  induction l with
  | nil => intro acc; simp
  | cons x rest ih =>
    intro acc
    simp only [List.foldl_cons]
    rw [ih, groupOf_insertGrouped]
    by_cases h : key x = k
    · simp [h, List.filter_cons]
    · simp [h, List.filter_cons]

theorem mem_foldlDistinct (ks : List String) (acc : List String) (a : String) :
    a ∈ ks.foldl (fun ac k => if k ∈ ac then ac else ac ++ [k]) acc ↔ a ∈ acc ∨ a ∈ ks := by
  induction ks generalizing acc with
  | nil => simp
  | cons k rest ih =>
    simp only [List.foldl_cons]
    by_cases h : k ∈ acc
    · rw [if_pos h, ih]
      constructor
      · rintro (ha | ha)
        · exact Or.inl ha
        · exact Or.inr (List.mem_cons_of_mem _ ha)
      · rintro (ha | ha)
        · exact Or.inl ha
        · rcases List.mem_cons.mp ha with rfl | ha
          · exact Or.inl h
          · exact Or.inr ha
    · rw [if_neg h, ih]
      simp only [List.mem_append, List.mem_singleton, List.mem_cons]
      tauto

theorem nodup_foldlDistinct (ks : List String) (acc : List String) (h : acc.Nodup) :
    (ks.foldl (fun ac k => if k ∈ ac then ac else ac ++ [k]) acc).Nodup := by
  induction ks generalizing acc with
  | nil => exact h
  | cons k rest ih =>
    simp only [List.foldl_cons]
    by_cases hk : k ∈ acc
    · rw [if_pos hk]
      exact ih acc h
    · rw [if_neg hk]
      refine ih _ ?_
      simp [List.nodup_append, h, hk]

theorem mem_distinctKeys (ks : List String) (a : String) :
    a ∈ distinctKeys ks ↔ a ∈ ks := by
  simpa [distinctKeys] using mem_foldlDistinct ks [] a

theorem nodup_distinctKeys (ks : List String) : (distinctKeys ks).Nodup :=
  nodup_foldlDistinct ks [] (by simp)

theorem groupBy_map_fst {α : Type} (key : α → String) (l : List α) :
    (groupBy key l).map Prod.fst = distinctKeys (l.map key) := by
  suffices h : ∀ (l : List α) (acc : List (String × List α)),
      ((l.foldl (fun a x => insertGrouped a (key x) x) acc)).map Prod.fst =
        (l.map key).foldl (fun ac k => if k ∈ ac then ac else ac ++ [k]) (acc.map Prod.fst) by
    simpa [groupBy, distinctKeys] using h l []
  intro l
  induction l with
  | nil => intro acc; rfl
  | cons x rest ih =>
    intro acc
    simp only [List.foldl_cons, List.map_cons]
    rw [ih, insertGrouped_map_fst]

/-- **C2** (corrected).  The Partition Grouper groups by the *exact*,
case-sensitive partition key — no case folding happens at group time.  For a
batch of N create requests the grouper produces exactly one group per
case-sensitively distinct key (the keys are pairwise distinct and are exactly
the keys occurring in the batch), the group sizes sum to N, and the group of
each key holds exactly the requests carrying that exact key, in order. -/
theorem c2_grouping_case_sensitive (items : List ProductCreate) :
    ((products_by_category items).map Prod.fst).Nodup ∧
    (∀ k, k ∈ (products_by_category items).map Prod.fst ↔
      k ∈ items.map (fun p => p.category)) ∧
    ((products_by_category items).map (fun g => g.2.length)).sum = items.length ∧
    (∀ k, groupOf (products_by_category items) k =
      items.filter (fun p => p.category == k)) := by
  refine ⟨?_, ?_, ?_, ?_⟩
  · rw [products_by_category, groupBy_map_fst]
    exact nodup_distinctKeys _
  · intro k
    rw [products_by_category, groupBy_map_fst, mem_distinctKeys]
  · exact groupBy_sizes_sum _ _
  · intro k
    exact groupOf_groupBy _ _ _

/-- Witness for **C2**: the grouping facts evaluated on a concrete two-item
batch. -/
theorem c2_grouping_case_sensitive_witness :
    (("A" ∈ (products_by_category
        [{ name := "wA", category := "A", price := 1, sku := "sA" },
         { name := "wa", category := "a", price := 1, sku := "sa" }]).map Prod.fst) ↔
      ("A" ∈ ([{ name := "wA", category := "A", price := 1, sku := "sA" },
         { name := "wa", category := "a", price := 1, sku := "sa" }] :
            List ProductCreate).map (fun p => p.category))) ∧
    groupOf (products_by_category
        [{ name := "wA", category := "A", price := 1, sku := "sA" },
         { name := "wa", category := "a", price := 1, sku := "sa" }]) "A" =
      [{ name := "wA", category := "A", price := 1, sku := "sA" }] := by
  refine ⟨(c2_grouping_case_sensitive _).2.1 "A", ?_⟩
  rw [(c2_grouping_case_sensitive _).2.2.2 "A"]
  decide

/-- **C8** (confirmed).  Each of the three batch entry points returns an
empty result list and makes zero store calls when its input list is empty,
whatever the store double would do. -/
theorem c8_empty_batch_no_store_calls (oracle₁ : BatchOracle) (genId : String → Nat → String)
    (now₁ : String) (oracle₂ : BatchOracle) (now₂ : String) (oracle₃ : BatchOracle) :
    create_products oracle₁ genId now₁ { items := [] } = ([], []) ∧
    update_products oracle₂ now₂ { items := [] } = ([], []) ∧
    delete_products oracle₃ { items := [] } = ([], []) :=
  ⟨rfl, rfl, rfl⟩

/-- **C9** (confirmed).  The single-item path persists the document with its
category normalized (`lower().strip()`), while the batch path builds every
document with the category exactly as the caller supplied it. -/
theorem c9_category_normalization_single_only (create_item : CreateDouble)
    (newId now : String) (product : ProductCreate) (genId : Nat → String) (i : Nat)
    (items : List ProductCreate) :
    ((create_product create_item newId now product).2).map (fun d => d.category) =
      [some (normalize_category product.category)] ∧
    (build_batch_create_docs genId now i items).map (fun d => d.category) =
      items.map (fun p => some p.category) := by
  constructor
  · simp [create_product, dump_create_doc]
  · induction items generalizing i with
    | nil => simp [build_batch_create_docs]
    | cons p rest ih => simp [build_batch_create_docs, dump_create_doc, ih]

theorem process_page_items_eq_filterMap (page : List StoreDoc) (acc : List ProductResponse) :
    process_page_items page acc = acc ++ page.filterMap modelValidate := by
  induction page generalizing acc with
  | nil => simp [process_page_items]
  | cons d rest ih =>
    cases h : modelValidate d <;> simp [process_page_items, h, ih]

/-- **C7** (confirmed).  The items returned by a list call are exactly the
records of the fetched store page that pass `ProductResponse` validation, in
page order: each record is validated independently and an invalid record is
skipped without aborting the page. -/
theorem c7_page_validation_filter (store : List StoreDoc) (category : String)
    (tok : Option String) (max_items : Nat) :
    (list_products store category tok max_items).items =
      (((list_result_set store category (normalize_category category)).drop
          (decode_token tok)).take max_items).filterMap modelValidate := by
  simp [list_products, process_page_items_eq_filterMap]

/-- A fully valid stored document in (normalized) category `"electronics"`,
as the single-item write path would have persisted it. -/
def c3Doc : StoreDoc :=
  { id := some "p1", name := some "Laptop", description := none,
    category := some "electronics", price := some 999, sku := some "SKU1",
    quantity := some 3, etag := some "etag1", status := some "active",
    last_updated := some "TS", ts := none }

/-- **C4** (code_bug).  `product_crud.py` maps an ETag mismatch (HTTP 412)
to the distinct error kind `PreconditionFailedError`, as the claim states —
but that class name, which `product_crud.py` imports from
`inventory_api.exceptions`, is not among the classes
`src/inventory_api/exceptions.py` defines, so in the real program the import
itself fails and no update can ever yield this error kind. -/
theorem c4_preconditionfailed_class_missing :
    "PreconditionFailedError" ∈ product_crud_exception_imports ∧
    "PreconditionFailedError" ∉ exceptions_defined ∧
    (update_product (fun _ => .error (.cosmosHttpResponseError 412 "precondition failed"))
        "T" "p1" "electronics" { name := some (some "N") } "etag-old").1 =
      .error (.preconditionFailedError
        "Product with ID 'p1' has been modified since last retrieved (ETag mismatch).") :=
  ⟨by decide, by decide, rfl⟩

/-- **C3** (code_bug).  `list_products` normalizes the category only for the
query parameter but passes the *raw* `category` as the Cosmos partition key,
and partition-key values are case-sensitive: with one valid stored item in
category `"electronics"`, listing with filter `"Electronics"` returns no
items while listing with `"electronics"` returns the item — the two calls do
not return identical item sets. -/
theorem c3_case_insensitive_listing_broken :
    (list_products [c3Doc] "Electronics" none 50).items = [] ∧
    (list_products [c3Doc] "electronics" none 50).items.length = 1 ∧
    (list_products [c3Doc] "Electronics" none 50).items ≠
      (list_products [c3Doc] "electronics" none 50).items := by
  refine ⟨by decide, by decide, by decide⟩

/-- Counterexample to **C2** as stated: two create requests whose partition
keys `"A"` and `"a"` differ only by letter case land in two *different*
groups (the batch of 2 requests spanning 1 case-insensitively distinct key
produces 2 groups, not 1), even though `normalize_category` identifies the
two keys. -/
theorem c2_counterexample_case_distinct_groups :
    products_by_category
        [{ name := "wA", category := "A", price := 1, sku := "sA" },
         { name := "wa", category := "a", price := 1, sku := "sa" }] =
      [("A", [{ name := "wA", category := "A", price := 1, sku := "sA" }]),
       ("a", [{ name := "wa", category := "a", price := 1, sku := "sa" }])] ∧
    normalize_category "A" = normalize_category "a" := by
  constructor
  · decide
  · decide

/-! ## C6: empty patches -/

/-- **C6** (corrected).  The single-item path rejects an empty patch
immediately with `ValueError` and makes no store call; the batch path does
*not* reject an empty patch — because `last_updated` is added to the dict
before the emptiness of the patch-op list is checked, an item with an empty
`changes` is submitted to the store as a patch containing exactly the
`last_updated` set operation. -/
theorem c6_empty_patch_single_rejected_batch_submitted
    (patch_item : PatchDouble) (now : String) (product_id category : String)
    (updates : ProductUpdate) (etag : String) (item : ProductBatchUpdateItem) :
    (updates.model_dump_exclude_unset = [] →
      update_product patch_item now product_id category updates etag =
        (.error (.valueError "No fields provided for update."), [])) ∧
    (item.changes.model_dump_exclude_unset = [] →
      build_update_op now item =
        some (.patch item.id
          [{ op := "set", path := "/last_updated", value := JValue.s now }] item.etag)) := by
  constructor
  · intro h
    unfold update_product
    rw [h]
    rfl
  · intro h
    unfold build_update_op
    rw [h]
    rfl

/-- Witness for **C6**: both halves evaluated at a concrete empty patch. -/
theorem c6_empty_patch_witness :
    update_product (fun _ => .error (.genericError "unused")) "T" "p1" "cat" {} "e" =
      (.error (.valueError "No fields provided for update."), []) ∧
    build_update_op "T" { id := "p1", category := "cat", etag := "e0", changes := {} } =
      some (.patch "p1"
        [{ op := "set", path := "/last_updated", value := JValue.s "T" }] "e0") :=
  ⟨(c6_empty_patch_single_rejected_batch_submitted
      (fun _ => .error (.genericError "unused")) "T" "p1" "cat" {} "e"
      { id := "p1", category := "cat", etag := "e0", changes := {} }).1 rfl,
   (c6_empty_patch_single_rejected_batch_submitted
      (fun _ => .error (.genericError "unused")) "T" "p1" "cat" {} "e"
      { id := "p1", category := "cat", etag := "e0", changes := {} }).2 rfl⟩

/-- Counterexample to **C6** as stated: a batch update whose single item has
an empty patch is *not* rejected and *does* reach the store — the call's
store trace contains one `execute_item_batch` invocation carrying a
`last_updated`-only patch for that item. -/
theorem c6_counterexample_batch_empty_patch_store_call :
    (update_products (fun _ _ => .error (.cosmosHttpResponseError 503 "unavailable")) "T"
        { items := [{ id := "p1", category := "cat", etag := "e0", changes := {} }] }).2 =
      [("cat", [.patch "p1"
        [{ op := "set", path := "/last_updated", value := JValue.s "T" }] "e0"])] := by
  decide

/-! ## C10: frame of the submitted patch -/

theorem mem_dumpField {β : Type} (o : Option β) (key : String) (f : β → JValue)
    (kv : String × JValue) (h : kv ∈ dumpField key f o) :
    kv.1 = key := by
  cases o <;> simp_all [dumpField]

theorem model_dump_keys (u : ProductUpdate) (kv : String × JValue)
    (h : kv ∈ u.model_dump_exclude_unset) :
    kv.1 = "name" ∨ kv.1 = "description" ∨ kv.1 = "price" ∨ kv.1 = "quantity" ∨
      kv.1 = "status" := by
  simp only [ProductUpdate.model_dump_exclude_unset, List.mem_append] at h
  rcases h with ((((h | h) | h) | h) | h)
  · exact Or.inl (mem_dumpField _ _ _ _ h)
  · exact Or.inr (Or.inl (mem_dumpField _ _ _ _ h))
  · exact Or.inr (Or.inr (Or.inl (mem_dumpField _ _ _ _ h)))
  · exact Or.inr (Or.inr (Or.inr (Or.inl (mem_dumpField _ _ _ _ h))))
  · exact Or.inr (Or.inr (Or.inr (Or.inr (mem_dumpField _ _ _ _ h))))

theorem update_dict_keys (u : ProductUpdate) (now : String) (kv : String × JValue)
    (h : kv ∈ u.model_dump_exclude_unset ++ [("last_updated", JValue.s now)]) :
    kv.1 = "name" ∨ kv.1 = "description" ∨ kv.1 = "price" ∨ kv.1 = "quantity" ∨
      kv.1 = "status" ∨ kv.1 = "last_updated" := by
  rcases List.mem_append.mp h with h | h
  · rcases model_dump_keys u kv h with h | h | h | h | h <;> tauto
  · simp only [List.mem_singleton] at h
    subst h
    tauto

theorem patch_ops_last_updated (dict : List (String × JValue)) (now : String) :
    ({ op := "set", path := "/last_updated", value := JValue.s now } : PatchOp) ∈
      json_patch_ops_from (dict ++ [("last_updated", JValue.s now)]) := by
  simp [json_patch_ops_from, List.filter_append]

theorem patch_ops_exclude_system_fields (u : ProductUpdate) (now : String)
    (op : PatchOp)
    (hop : op ∈ json_patch_ops_from
      (u.model_dump_exclude_unset ++ [("last_updated", JValue.s now)])) :
    op.path ≠ "/id" ∧ op.path ≠ "/category" ∧ op.path ≠ "/_etag" := by
  simp only [json_patch_ops_from, List.mem_map, List.mem_filter] at hop
  obtain ⟨kv, ⟨hkv, _⟩, rfl⟩ := hop
  refine ⟨?_, ?_, ?_⟩ <;>
    · show "/" ++ kv.1 ≠ _
      rcases update_dict_keys u now kv hkv with h | h | h | h | h | h <;> rw [h] <;> decide

/-- **C10** (confirmed).  Whatever the caller's patch contains, every patch
actually submitted to the store — by the single-item path (any entry of its
`patch_item` trace) and by the batch path (any emitted batch patch op) —
contains the `set /last_updated` operation and contains no operation for
`/id`, `/category` or `/_etag`. -/
theorem c10_patch_frame (patch_item : PatchDouble) (now : String)
    (product_id category : String) (updates : ProductUpdate) (etag : String)
    (item : ProductBatchUpdateItem) :
    (∀ c ∈ (update_product patch_item now product_id category updates etag).2,
      ({ op := "set", path := "/last_updated", value := JValue.s now } : PatchOp) ∈ c.ops ∧
      ∀ op ∈ c.ops, op.path ≠ "/id" ∧ op.path ≠ "/category" ∧ op.path ≠ "/_etag") ∧
    (∀ pid ops etg, build_update_op now item = some (.patch pid ops etg) →
      ({ op := "set", path := "/last_updated", value := JValue.s now } : PatchOp) ∈ ops ∧
      ∀ op ∈ ops, op.path ≠ "/id" ∧ op.path ≠ "/category" ∧ op.path ≠ "/_etag") := by
  constructor
  · intro c hc
    unfold update_product at hc
    by_cases h : updates.model_dump_exclude_unset.isEmpty
    · rw [if_pos h] at hc
      simp at hc
    · rw [if_neg h] at hc
      simp only [List.mem_singleton] at hc
      subst hc
      exact ⟨patch_ops_last_updated _ _,
        fun op hop => patch_ops_exclude_system_fields updates now op hop⟩
  · intro pid ops etg hsome
    unfold build_update_op at hsome
    by_cases h : (json_patch_ops_from
        (item.changes.model_dump_exclude_unset ++ [("last_updated", JValue.s now)])).isEmpty
    · rw [if_pos h] at hsome
      exact absurd hsome (by simp)
    · rw [if_neg h] at hsome
      simp only [Option.some.injEq, BatchOp.patch.injEq] at hsome
      obtain ⟨-, rfl, -⟩ := hsome
      exact ⟨patch_ops_last_updated _ _,
        fun op hop => patch_ops_exclude_system_fields item.changes now op hop⟩

/-- Witness for **C10**: the frame facts evaluated on the concrete trace of a
single-item update setting `name`, and on the concrete batch op of an item
setting `price`. -/
theorem c10_patch_frame_witness :
    (({ op := "set", path := "/last_updated", value := JValue.s "T" } : PatchOp) ∈
        (PatchCall.mk "p1" "cat"
          [{ op := "set", path := "/name", value := JValue.s "N" },
           { op := "set", path := "/last_updated", value := JValue.s "T" }] "e").ops ∧
      ∀ op ∈ (PatchCall.mk "p1" "cat"
          [{ op := "set", path := "/name", value := JValue.s "N" },
           { op := "set", path := "/last_updated", value := JValue.s "T" }] "e").ops,
        op.path ≠ "/id" ∧ op.path ≠ "/category" ∧ op.path ≠ "/_etag") ∧
    (({ op := "set", path := "/last_updated", value := JValue.s "T" } : PatchOp) ∈
        [({ op := "set", path := "/price", value := JValue.i 5 } : PatchOp),
         { op := "set", path := "/last_updated", value := JValue.s "T" }] ∧
      ∀ op ∈ [({ op := "set", path := "/price", value := JValue.i 5 } : PatchOp),
         { op := "set", path := "/last_updated", value := JValue.s "T" }],
        op.path ≠ "/id" ∧ op.path ≠ "/category" ∧ op.path ≠ "/_etag") :=
  ⟨(c10_patch_frame (fun _ => .error (.genericError "unused")) "T" "p1" "cat"
      { name := some (some "N") } "e"
      { id := "q1", category := "cat", etag := "e2",
        changes := { price := some (some 5) } }).1
    (PatchCall.mk "p1" "cat"
      [{ op := "set", path := "/name", value := JValue.s "N" },
       { op := "set", path := "/last_updated", value := JValue.s "T" }] "e") (by decide),
   (c10_patch_frame (fun _ => .error (.genericError "unused")) "T" "p1" "cat"
      { name := some (some "N") } "e"
      { id := "q1", category := "cat", etag := "e2",
        changes := { price := some (some 5) } }).2 "q1"
    [({ op := "set", path := "/price", value := JValue.i 5 } : PatchOp),
     { op := "set", path := "/last_updated", value := JValue.s "T" }] "e2" (by decide)⟩

/-! ## C1: partial batch failure -/

theorem collect_batch_results_mem (rs : List StoreDoc) (acc : List ProductResponse)
    (p : ProductResponse) (hp : p ∈ collect_batch_results rs acc) :
    p ∈ acc ∨ ∃ d ∈ rs, modelValidate d = some p := by
  induction rs generalizing acc with
  | nil =>
    simp only [collect_batch_results] at hp
    exact Or.inl hp
  | cons d rest ih =>
    simp only [collect_batch_results] at hp
    split at hp
    · split at hp
      next q heq =>
        rcases ih _ hp with hmem | ⟨d', hd', hvd'⟩
        · rcases List.mem_append.mp hmem with h | h
          · exact Or.inl h
          · simp only [List.mem_singleton] at h
            subst h
            exact Or.inr ⟨d, List.mem_cons_self _ _, heq⟩
        · exact Or.inr ⟨d', List.mem_cons_of_mem _ hd', hvd'⟩
      next heq =>
        exact Or.inl hp
    · rcases ih _ hp with h | ⟨d', hd', hvd'⟩
      · exact Or.inl h
      · exact Or.inr ⟨d', List.mem_cons_of_mem _ hd', hvd'⟩

theorem process_category_creates_mem (oracle : BatchOracle) (genId : Nat → String)
    (now : String) (pk : String) (items : List ProductCreate) (p : ProductResponse)
    (hp : p ∈ (process_category_creates oracle genId now pk items).1) :
    ∃ ops rs, oracle pk ops = .ok rs ∧ ∃ d ∈ rs, modelValidate d = some p := by
  simp only [process_category_creates] at hp
  split at hp
  · simp at hp
  · split at hp
    · simp at hp
    · split at hp
      next rs heq =>
        refine ⟨_, rs, heq, ?_⟩
        rcases collect_batch_results_mem rs [] p (by simpa using hp) with h | h
        · simp at h
        · exact h
      next e heq =>
        simp at hp

/-- **C1** (corrected).  A batch create call never raises for a partial
failure (the embedded function is total and every per-group exception is
caught), but it returns the succeeded items *only*: every product in the
returned list was validated out of a store batch response that succeeded, so
operations of failed groups contribute nothing to the return value, and no
failure detail of any kind is part of it. -/
theorem c1_partial_failure_returns_successes_only (oracle : BatchOracle)
    (genId : String → Nat → String) (now : String) (batch_create : ProductBatchCreate)
    (p : ProductResponse)
    (hp : p ∈ (create_products oracle genId now batch_create).1) :
    ∃ pk ops rs, oracle pk ops = .ok rs ∧ ∃ d ∈ rs, modelValidate d = some p := by
  by_cases h : batch_create.items.isEmpty
  · simp [create_products, h] at hp
  · simp only [create_products, if_neg h] at hp
    rw [List.mem_flatten] at hp
    obtain ⟨l, hl, hpl⟩ := hp
    rw [List.mem_map] at hl
    obtain ⟨pr, hpr, rfl⟩ := hl
    rw [List.mem_map] at hpr
    obtain ⟨g, hg, rfl⟩ := hpr
    obtain ⟨ops, rs, hok, hd⟩ := process_category_creates_mem oracle (genId g.1) now g.1 g.2 p hpl
    exact ⟨g.1, ops, rs, hok, hd⟩

/-- Store double for the C1 scenario (the spec's own §8 scenario): partition
`"a"` succeeds with two persisted documents; any other partition fails with a
structured `CosmosBatchOperationError`. -/
def c1Oracle : BatchOracle := fun pk _ =>
  if pk = "a" then
    .ok [{ id := some "a1", name := some "n1", category := some "a", price := some 1,
           sku := some "s1", quantity := some 1, etag := some "e1",
           status := some "active", last_updated := some "T" },
         { id := some "a2", name := some "n2", category := some "a", price := some 1,
           sku := some "s2", quantity := some 1, etag := some "e2",
           status := some "active", last_updated := some "T" }]
  else .error (.cosmosBatchOperationError 0 [{ statusCode := 409 }])

/-- The C1 scenario batch: three creates, two in partition `"a"`, one in
partition `"b"`. -/
def c1Batch : ProductBatchCreate :=
  { items := [{ name := "n1", category := "a", price := 1, sku := "s1", quantity := 1 },
              { name := "n2", category := "a", price := 1, sku := "s2", quantity := 1 },
              { name := "n3", category := "b", price := 1, sku := "s3", quantity := 1 }] }

/-- Counterexample to **C1** as stated: in the partial-failure scenario
(group `"a"` succeeds, group `"b"` fails) both groups are submitted (the
store trace has two calls), yet the call's entire return value is the list of
the two succeeded `"a"` items — there is no failure list, and the failed
`"b"` operation appears nowhere in the response. -/
theorem c1_counterexample_failures_dropped :
    (create_products c1Oracle (fun _ _ => "u") "T" c1Batch).1 =
      [{ id := "a1", name := "n1", description := none, category := "a", price := 1,
         sku := "s1", quantity := 1, etag := "e1", status := .active, last_updated := "T" },
       { id := "a2", name := "n2", description := none, category := "a", price := 1,
         sku := "s2", quantity := 1, etag := "e2", status := .active, last_updated := "T" }] ∧
    ((create_products c1Oracle (fun _ _ => "u") "T" c1Batch).1.map (fun p => p.category)) =
      ["a", "a"] ∧
    (create_products c1Oracle (fun _ _ => "u") "T" c1Batch).2.length = 2 := by
  decide

/-- The first product the C1 scenario returns. -/
def c1RespA1 : ProductResponse :=
  { id := "a1", name := "n1", description := none, category := "a", price := 1,
    sku := "s1", quantity := 1, etag := "e1", status := .active, last_updated := "T" }

/-- Witness for **C1**: the provenance fact applied to the first returned
item of the concrete partial-failure scenario. -/
theorem c1_partial_failure_witness :
    ∃ pk ops rs, c1Oracle pk ops = .ok rs ∧ ∃ d ∈ rs, modelValidate d = some c1RespA1 :=
  c1_partial_failure_returns_successes_only c1Oracle (fun _ _ => "u") "T" c1Batch _ (by decide)

/-! ## C5: transport-level group failure -/

/-- Whether a `PyError` is a transport-level failure (an HTTP or unexpected
error, as opposed to a structured per-operation batch error). -/
def PyError.isTransport : PyError → Bool
  | .cosmosHttpResponseError _ _ => true
  | .genericError _ => true
  | _ => false

theorem batch_create_ops_ne_nil (genId : Nat → String) (now : String) (i : Nat)
    (items : List ProductCreate) (h : items ≠ []) :
    ((build_batch_create_docs genId now i items).map BatchOp.create).isEmpty = false := by
  cases items with
  | nil => exact absurd rfl h
  | cons p rest => simp [build_batch_create_docs]

/-- **C5** (corrected).  When a group's store call fails at the transport
level, no operation of that group is reported as succeeded — the group
contributes an empty success list (fail-closed on successes) — but no error
is surfaced to the caller either: the call returns normally, the group's only
trace being the store call itself.  This holds for the create and the delete
executors. -/
theorem c5_transport_failure_no_success_no_error (oracle : BatchOracle)
    (genId : Nat → String) (now : String) (pk : String)
    (items : List ProductCreate) (ids : List String) (e e' : PyError)
    (h1 : items ≠ [])
    (h2 : oracle pk ((build_batch_create_docs genId now 0 items).map BatchOp.create) = .error e)
    (h3 : e.isTransport = true)
    (h4 : ids ≠ [])
    (h5 : oracle pk (ids.map BatchOp.delete) = .error e')
    (h6 : e'.isTransport = true) :
    process_category_creates oracle genId now pk items =
      ([], [(pk, (build_batch_create_docs genId now 0 items).map BatchOp.create)]) ∧
    process_category_deletes oracle pk ids = ([], [(pk, ids.map BatchOp.delete)]) := by
  have hitems : items.isEmpty = false := by
    cases items with
    | nil => exact absurd rfl h1
    | cons p rest => rfl
  have hids : ids.isEmpty = false := by
    cases ids with
    | nil => exact absurd rfl h4
    | cons i rest => rfl
  have hidops : (ids.map BatchOp.delete).isEmpty = false := by
    cases ids with
    | nil => exact absurd rfl h4
    | cons i rest => rfl
  constructor
  · simp only [process_category_creates, hitems, batch_create_ops_ne_nil genId now 0 items h1,
      Bool.false_eq_true, if_false]
    rw [h2]
  · simp only [process_category_deletes, hids, hidops, Bool.false_eq_true, if_false]
    rw [h5]

/-- Store double for the C5 scenario: every batch call fails with a
transport-level HTTP error. -/
def c5Oracle : BatchOracle := fun _ _ => .error (.cosmosHttpResponseError 503 "Service Unavailable")

/-- The single create request of the C5 scenario. -/
def c5Item : ProductCreate :=
  { name := "n3", category := "b", price := 1, sku := "s3", quantity := 1 }

/-- The document the C5 scenario's create group builds and submits. -/
def c5Doc : StoreDoc :=
  { id := some "u", name := some "n3", description := none, category := some "b",
    price := some 1, sku := some "s3", quantity := some 1, etag := none,
    status := some "active", last_updated := some "T", ts := none }

/-- Counterexample to **C5** as stated: a batch create whose only group hits
a transport-level failure returns normally with an *empty* result — the
return value carries no aggregated error (nor any error at all); the failure
is only logged.  The store trace shows the group was submitted once. -/
theorem c5_counterexample_error_swallowed :
    create_products c5Oracle (fun _ _ => "u") "T" { items := [c5Item] } =
      ([], [("b", [.create c5Doc])]) := by
  decide

/-- Witness for **C5**: the fail-closed-but-swallowed fact evaluated on a
concrete one-item create group and a concrete one-id delete group. -/
theorem c5_transport_failure_witness :
    process_category_creates c5Oracle (fun _ => "u") "T" "b" [c5Item] =
      ([], [("b", [.create c5Doc])]) ∧
    process_category_deletes c5Oracle "b" ["x1"] = ([], [("b", [.delete "x1"])]) :=
  c5_transport_failure_no_success_no_error c5Oracle (fun _ => "u") "T" "b"
    [c5Item] ["x1"]
    (.cosmosHttpResponseError 503 "Service Unavailable")
    (.cosmosHttpResponseError 503 "Service Unavailable")
    (by decide) rfl rfl (by decide) rfl rfl

end InventoryCore
